import Mathlib

/-!
Verification of the stream-session supervisor in `app.py` (liveyt4).

The Python source keeps its job registry as a pandas DataFrame with the
columns `Video`, `Durasi`, `Jam Mulai`, `Streaming Key`, `Status`,
`Is Shorts`, `Quality`; rows are addressed positionally (labels `0..n-1`).
We embed a registry as a `List Job` where a job's id is its position.

Statuses are the literal strings used by the source:
`"Menunggu"` (Waiting), `"Sedang Live"` (Live), `"Selesai"` (Completed),
`"Dihentikan"` (Stopped), `"Terputus"` (Disconnected), and `"error: …"`.

File-system and OS interactions are made explicit: the set of
`stream_<id>.pid` tracking files is a list of name/content pairs, process
liveness (`is_process_running`, which also performs the ffmpeg identity
check) is an oracle `Int → Bool`, and side effects (files removed, status
files written, signals sent, remote broadcast transitions requested) are
returned as data.
-/

namespace LiveYT

/-- One row of the streams DataFrame (`app.py` columns at lines 50-55). -/
structure Job where
  video : String
  durasi : String
  jamMulai : String
  streamingKey : String
  status : String
  isShorts : Bool
  quality : String
deriving DecidableEq

/-- Python whitespace for `str.strip()` (the characters that actually
occur in the files this program writes). -/
def pyIsSpace (c : Char) : Bool :=
  c = ' ' || c = '\t' || c = '\n' || c = '\r'

/-- `str.strip()`: drop leading and trailing whitespace. -/
def pyStrip (l : List Char) : List Char :=
  ((l.dropWhile pyIsSpace).reverse.dropWhile pyIsSpace).reverse

/-- Turn a list of decimal digit characters into a number; `none` if the
list is empty or contains a non-digit.  Helper for `pyInt`. -/
def digitsToNat (l : List Char) : Option Nat :=
  if l.isEmpty then none
  else
    l.foldl
      (fun acc c =>
        match acc with
        | none => none
        | some n => if c.isDigit then some (n * 10 + (c.toNat - 48)) else none)
      (some 0)

/-- Model of Python `int(s)` on a character list: strip surrounding
whitespace, allow one optional sign, then a nonempty run of decimal
digits; `none` models the `ValueError` path.  (Python also accepts
digit-group underscores and non-ASCII digits; the source only ever
produces plain decimal strings.) -/
def pyIntChars (l : List Char) : Option Int :=
  match pyStrip l with
  | '-' :: rest => (digitsToNat rest).map (fun n => -(n : Int))
  | '+' :: rest => (digitsToNat rest).map (fun n => (n : Int))
  | l => (digitsToNat l).map (fun n => (n : Int))

/-- Model of Python `int(s)` on a string. -/
def pyInt (s : String) : Option Int :=
  pyIntChars s.data

/-- Python `s.split(sep)` for a single-character separator. -/
def splitChar (sep : Char) : List Char → List (List Char)
  | [] => [[]]
  | c :: cs =>
    if c = sep then [] :: splitChar sep cs
    else
      match splitChar sep cs with
      | [] => [[c]]
      | g :: gs => (c :: g) :: gs

/-- `l` begins with `p`. -/
def hasPrefixChars : List Char → List Char → Bool
  | [], _ => true
  | _ :: _, [] => false
  | p :: ps, c :: cs => p = c && hasPrefixChars ps cs

/-- `l` ends with `s`. -/
def hasSuffixChars (s l : List Char) : Bool :=
  hasPrefixChars s.reverse l.reverse

/-- `row_id` extraction of `reconnect_to_existing_streams` (line 470):
`int(pid_file.split('_')[1].split('.')[0])`.  The caller only passes
names starting with `stream_`, so index 1 exists; a missing piece or a
non-integer piece is the `ValueError` path, modelled as `none`. -/
def parseRowId (name : String) : Option Int :=
  match (splitChar '_' name.data).get? 1 with
  | none => none
  | some mid => pyIntChars ((splitChar '.' mid).headD [])

/-- Result row of `get_quality_settings` (lines 509-537). -/
structure QualitySettings where
  videoBitrate : String
  audioBitrate : String
  maxrate : String
  bufsize : String
  scale : String
  fps : String
deriving DecidableEq

/-- `get_quality_settings(quality, is_shorts)` (lines 509-537): fixed
table for `"480p"`, `"720p"`, `"1080p"`, scale swapped when `is_shorts`;
any other quality string falls back to the `"720p"` row
(`settings.get(quality, settings["720p"])`). -/
def get_quality_settings (quality : String) (is_shorts : Bool) : QualitySettings :=
  if quality = "720p" then
    ⟨"2500k", "128k", "2750k", "5500k", if is_shorts then "720:1280" else "1280:720", "30"⟩
  else if quality = "1080p" then
    ⟨"4500k", "192k", "4950k", "9900k", if is_shorts then "1080:1920" else "1920:1080", "30"⟩
  else if quality = "480p" then
    ⟨"1000k", "96k", "1100k", "2200k", if is_shorts then "480:854" else "854:480", "30"⟩
  else
    ⟨"2500k", "128k", "2750k", "5500k", if is_shorts then "720:1280" else "1280:720", "30"⟩

/-- Positional status write, the registry effect of
`st.session_state.streams.loc[i, 'Status'] = st` for an in-range label
`i`.  Out-of-range positions are untouched (a `loc` write to an absent
label creates a fresh row outside positions `0..n-1`; such phantom
writes are tracked separately where they can occur). -/
def updateStatus : List Job → Nat → String → List Job
  | [], _, _ => []
  | j :: js, 0, st => { j with status := st } :: js
  | j :: js, n + 1, st => j :: updateStatus js n st

/-- Lookup in the `active_streams` dict (keys `str(row_id)`, values the
recorded pid). -/
def alookup (l : List (Int × Int)) (k : Int) : Option Int :=
  (l.find? (fun p => p.1 = k)).map (fun p => p.2)

/-- Dict update `active_streams[str(k)] = {pid: v, …}`. -/
def ainsert (l : List (Int × Int)) (k v : Int) : List (Int × Int) :=
  if (l.find? (fun p => p.1 = k)).isSome then
    l.map (fun p => if p.1 = k then (k, v) else p)
  else l ++ [(k, v)]

/-- Dict removal `del active_streams[str(k)]` (a no-op when absent, as
the source always guards with `if str(k) in active_streams`). -/
def aerase (l : List (Int × Int)) (k : Int) : List (Int × Int) :=
  l.filter (fun p => ¬ p.1 = k)

/-- The two tracking-file names `cleanup_stream_files(row_id)`
(lines 495-507) removes. -/
def cleanupFiles (rid : Int) : List String :=
  ["stream_" ++ toString rid ++ ".pid", "stream_" ++ toString rid ++ ".status"]

/-- One `stream_*.pid` tracking file: its name and its textual content. -/
structure PidFile where
  name : String
  content : String
deriving DecidableEq

/-- State threaded through one run of `reconnect_to_existing_streams`
(lines 462-493), plus the effects it accumulates.  `removed` lists the
file names it deletes (`os.remove` / `cleanup_stream_files`); `phantom`
records `loc` status writes to labels absent from `0..n-1` (a negative
parsed id passes the `row_id < len(...)` guard, and pandas then creates
a fresh row under that label instead of touching an existing record). -/
structure ScanState where
  streams : List Job
  active : List (Int × Int)
  removed : List String
  phantom : List Int
deriving DecidableEq

/-- The body of the `for pid_file in pid_files` loop of
`reconnect_to_existing_streams` (lines 468-491) for one file.
Any `int` parse failure takes the `except` branch, which removes the
offending file and moves on. -/
def scanFile (running : Int → Bool) (s : ScanState) (f : PidFile) : ScanState :=
  match parseRowId f.name, pyInt f.content with
  | some rid, some pid =>
    if running pid then
      if rid < (s.streams.length : Int) then
        if 0 ≤ rid then
          { s with
            streams := updateStatus s.streams rid.toNat "Sedang Live",
            active := ainsert s.active rid pid }
        else
          { s with phantom := s.phantom ++ [rid], active := ainsert s.active rid pid }
      else s
    else
      { s with removed := s.removed ++ cleanupFiles rid, active := aerase s.active rid }
  | _, _ => { s with removed := s.removed ++ [f.name] }

/-- `reconnect_to_existing_streams()` (lines 462-493): filter the
directory listing down to `stream_*.pid` files and fold the loop body
over them.  `streams` is `st.session_state.streams`, `active` the dict
loaded by `load_active_streams()`, `files` the directory listing. -/
def reconnect_to_existing_streams (running : Int → Bool) (streams : List Job)
    (active : List (Int × Int)) (files : List PidFile) : ScanState :=
  (files.filter (fun f =>
      hasPrefixChars "stream_".data f.name.data &&
      hasSuffixChars ".pid".data f.name.data)).foldl
    (scanFile running) ⟨streams, active, [], []⟩

/-- Effects of `start_stream` (lines 675-694): it unconditionally writes
`status = 'Sedang Live'` at the row, persists the registry, writes the
`stream_<id>.status` file `"starting"`, and spawns the `run_ffmpeg`
thread for that row.  No source-file existence check occurs: the result
does not depend on the file system at all. -/
structure StartResult where
  streams : List Job
  ok : Bool
  persisted : Bool
  statusFileWrites : List (String × String)
  spawned : List Nat
deriving DecidableEq

/-- `start_stream(video_path, stream_key, is_shorts, row_id, quality)`
(lines 675-694), registry effects only (the video path, key and quality
are passed straight through to the spawned `run_ffmpeg` thread). -/
def start_stream (streams : List Job) (rowId : Nat) : StartResult :=
  { streams := updateStatus streams rowId "Sedang Live",
    ok := true,
    persisted := true,
    statusFileWrites := [("stream_" ++ toString rowId ++ ".status", "starting")],
    spawned := [rowId] }

/-- `check_scheduled_streams()` (lines 799-806): walk the rows; a row
starts exactly when `Status == 'Menunggu'` and `Jam Mulai` is string
equal to the current `"%H:%M"` time.  Returns the updated rows and the
indices for which `start_stream` was invoked. -/
def checkScheduledGo (now : String) : Nat → List Job → List Job × List Nat
  | _, [] => ([], [])
  | i, row :: rest =>
    let r := checkScheduledGo now (i + 1) rest
    if row.status = "Menunggu" && row.jamMulai = now then
      ({ row with status := "Sedang Live" } :: r.1, i :: r.2)
    else
      (row :: r.1, r.2)

/-- `check_scheduled_streams()` (lines 799-806) over the whole registry. -/
def check_scheduled_streams (now : String) (streams : List Job) : List Job × List Nat :=
  checkScheduledGo now 0 streams

/-- The persisted registry file `streams_data.json` as seen by
`load_persistent_streams`: absent, present and parseable, or present
but unparseable (the `json.load` / DataFrame construction raised). -/
inductive RegistryFile where
  | absent : RegistryFile
  | present : Option (List Job) → RegistryFile
deriving DecidableEq

/-- `load_persistent_streams()` (lines 42-55): a missing file and an
unreadable file both produce the empty DataFrame with the seven columns;
a readable file produces its records.  The function never raises and
never writes. -/
def load_persistent_streams : RegistryFile → List Job
  | RegistryFile.absent => []
  | RegistryFile.present none => []
  | RegistryFile.present (some jobs) => jobs

/-- Content of a file on disk, if it exists. -/
def fileLookup (files : List PidFile) (n : String) : Option String :=
  (files.find? (fun f => f.name = n)).map (fun f => f.content)

/-- Side effects of one `stop_stream` call.  `kills` records signals sent
to the process group of a pid; `broadcastRequests` records remote
broadcast transitions requested — `stop_stream` (lines 696-753) contains
no call to `stop_youtube_broadcast` (lines 395-409, itself without any
caller in the source), so this list is built empty on every path. -/
structure StopEffects where
  kills : List (Int × String)
  statusFileWrites : List (String × String)
  removedFiles : List String
  broadcastRequests : List (String × String)
deriving DecidableEq

/-- Result of one `stop_stream` call. -/
structure StopResult where
  streams : List Job
  active : List (Int × Int)
  ret : Bool
  effects : StopEffects
deriving DecidableEq

/-- Pid discovery of `stop_stream` (lines 701-707): the pid comes from
the `active_streams` dict; when missing or falsy (`if not pid`), it is
read from `stream_<row_id>.pid`.  The outer `none` models the
`ValueError` a corrupt pid file raises, which the enclosing `except`
turns into a `False` return with nothing changed. -/
def stopPidRead (active : List (Int × Int)) (files : List PidFile) (rowId : Nat) :
    Option (Option Int) :=
  if (alookup active (rowId : Int)).getD 0 = 0 then
    match fileLookup files ("stream_" ++ toString rowId ++ ".pid") with
    | some content =>
      match pyInt content with
      | some p => some (some p)
      | none => none
    | none => some (alookup active (rowId : Int))
  else some (alookup active (rowId : Int))

/-- `stop_stream(row_id)` (lines 696-753).  With a live,
identity-matched pid the process group gets `SIGTERM`, then `SIGKILL`
if `is_process_running` still answers yes after the 2s grace (that
re-check is the `runningAfterTerm` oracle).  Both the kill branch and
the already-gone branch then write the status `Dihentikan`, persist,
drop the `active_streams` entry, remove the tracking files, and return
`True`. -/
def stop_stream (running runningAfterTerm : Int → Bool) (streams : List Job)
    (active : List (Int × Int)) (files : List PidFile) (rowId : Nat) : StopResult :=
  match stopPidRead active files rowId with
  | none => ⟨streams, active, false, ⟨[], [], [], []⟩⟩
  | some pidO =>
    let pid := pidO.getD 0
    if pid = 0 then
      { streams := updateStatus streams rowId "Dihentikan",
        active := aerase active (rowId : Int),
        ret := true,
        effects := ⟨[], [], cleanupFiles (rowId : Int), []⟩ }
    else if running pid then
      { streams := updateStatus streams rowId "Dihentikan",
        active := aerase active (rowId : Int),
        ret := true,
        effects :=
          ⟨(pid, "SIGTERM") ::
              (if runningAfterTerm pid then [(pid, "SIGKILL")] else []),
            [("stream_" ++ toString rowId ++ ".status", "stopped")],
            cleanupFiles (rowId : Int), []⟩ }
    else
      { streams := updateStatus streams rowId "Dihentikan",
        active := aerase active (rowId : Int),
        ret := true,
        effects := ⟨[], [], cleanupFiles (rowId : Int), []⟩ }

/-- `-minrate` value of `run_ffmpeg` (line 568): the video bitrate with
every letter k removed, parsed as an integer, floor-divided by 2, and
rendered back with a k suffix.  The table bitrates always parse, so the
`getD 0` default is never hit. -/
def minrateOf (vb : String) : String :=
  toString ((pyInt (String.mk (vb.data.filter (fun c => ¬ c = 'k')))).getD 0 / 2) ++ "k"

/-- The ffmpeg argument vector built by `run_ffmpeg` (lines 550-590),
with the stream key embedded in the final RTMP output URL (line 541). -/
def ffmpegCmd (videoPath streamKey : String) (is_shorts : Bool) (quality : String) :
    List String :=
  let settings := get_quality_settings quality is_shorts
  ["ffmpeg",
   "-hide_banner",
   "-loglevel", "info",
   "-re",
   "-stream_loop", "-1",
   "-i", videoPath,
   "-c:v", "libx264",
   "-preset", "veryfast",
   "-tune", "zerolatency",
   "-profile:v", "high",
   "-level", "4.1",
   "-pix_fmt", "yuv420p",
   "-b:v", settings.videoBitrate,
   "-maxrate", settings.maxrate,
   "-bufsize", settings.bufsize,
   "-minrate", minrateOf settings.videoBitrate,
   "-g", "60",
   "-keyint_min", "30",
   "-sc_threshold", "0",
   "-r", settings.fps,
   "-c:a", "aac",
   "-b:a", settings.audioBitrate,
   "-ar", "44100",
   "-ac", "2",
   "-vf", "scale=" ++ settings.scale ++ ":force_original_aspect_ratio=decrease,pad=" ++
     settings.scale ++ ":(ow-iw)/2:(oh-ih)/2,fps=" ++ settings.fps,
   "-f", "flv",
   "-reconnect", "1",
   "-reconnect_streamed", "1",
   "-reconnect_delay_max", "5",
   "rtmp://a.rtmp.youtube.com/live2/" ++ streamKey]

/-- Python `' '.join(cmd)`. -/
def joinSpace : List String → String
  | [] => ""
  | [x] => x
  | x :: y :: xs => x ++ " " ++ joinSpace (y :: xs)

/-- The line `run_ffmpeg` appends to the per-job log file at
lines 592-593: the text `Running: ` followed by the space-joined
argument vector (shown here without the trailing newline). -/
def run_ffmpeg_log_cmd_line (videoPath streamKey : String) (is_shorts : Bool)
    (quality : String) : String :=
  "Running: " ++ joinSpace (ffmpegCmd videoPath streamKey is_shorts quality)

/-- Stream-key masking of the Stream Manager table (lines 960-966). -/
def maskKey (k : String) : String :=
  if 8 < k.data.length then
    String.mk (k.data.take 4) ++ "•••••" ++ String.mk ((k.data.reverse.take 3).reverse)
  else
    "••••••••"

/-- Modelled from the spec: time-of-day comparison used by the claimed
scheduler rule "trigger when `now >= scheduledStart` by clock-time
comparison only".  Both times are `"%H:%M"` strings; they are compared
as minutes since midnight.  This definition follows the spec's words and
exists only to state the claim against `check_scheduled_streams`. -/
def timeOfDayMinutes (s : String) : Option Nat :=
  match splitChar ':' s.data with
  | [h, m] =>
    match digitsToNat h, digitsToNat m with
    | some hh, some mm => some (hh * 60 + mm)
    | _, _ => none
  | _ => none

/-- Modelled from the spec: `a` is a time-of-day equal to or earlier
than `b`. -/
def timeLE (a b : String) : Bool :=
  match timeOfDayMinutes a, timeOfDayMinutes b with
  | some x, some y => x ≤ y
  | _, _ => false

/-- The per-row effect of one scheduler tick, factored out of
`check_scheduled_streams` for reuse in its row-level description. -/
def schedulerStep (now : String) (row : Job) : Job :=
  if row.status = "Menunggu" && row.jamMulai = now then
    { row with status := "Sedang Live" }
  else row

/-- A Waiting job scheduled for 08:00, for exercising the scheduler. -/
def c1job : Job :=
  ⟨"demo.mp4", "01:00:00", "08:00", "abcd1234", "Menunggu", false, "720p"⟩

/-- A job persisted Live, for exercising the scanner after a crash. -/
def c2job : Job :=
  ⟨"demo.mp4", "01:00:00", "11:00", "key2", "Sedang Live", false, "720p"⟩

/-- A Waiting job, for exercising `stop_stream` on a non-Live row. -/
def c3job : Job :=
  ⟨"demo.mp4", "01:00:00", "10:00", "key3", "Menunggu", false, "720p"⟩

/-- A Completed job, for exercising `stop_stream` on a terminal row. -/
def c3wjob : Job :=
  ⟨"demo.mp4", "01:00:00", "10:30", "key3w", "Selesai", false, "720p"⟩

/-- A Waiting job whose source file is meant to be absent. -/
def c4job : Job :=
  ⟨"missing.mp4", "01:00:00", "09:30", "key4", "Menunggu", false, "720p"⟩

/-- A Live job with a recorded running pid, for exercising stop. -/
def c8job : Job :=
  ⟨"demo.mp4", "01:00:00", "12:00", "key8", "Sedang Live", false, "720p"⟩

/-- A Waiting job, for showing the scanner itself can write Live. -/
def c9job : Job :=
  ⟨"demo.mp4", "01:00:00", "09:00", "key9", "Menunggu", false, "720p"⟩

/-- A Live job, for exercising Live preservation. -/
def c9live : Job :=
  ⟨"demo.mp4", "01:00:00", "09:00", "key9", "Sedang Live", false, "720p"⟩

/-- A tracking file whose name does not parse as a row id. -/
def c10file : PidFile := ⟨"stream_zz.pid", "notanint"⟩

end LiveYT

namespace LiveYT

theorem pyInt_example : pyInt "42" = some 42 := by rfl

theorem parseRowId_example : parseRowId "stream_12.pid" = some 12 := by rfl

/-- A positional status write leaves the number of rows unchanged. -/
theorem updateStatus_length (l : List Job) (j : Nat) (st : String) :
    (updateStatus l j st).length = l.length := by
  induction l generalizing j with
  | nil => rfl
  | cons a as ih =>
    cases j with
    | zero => rfl
    | succ n => simpa [updateStatus] using ih n

/-- Row-level description of a positional status write. -/
theorem updateStatus_get? (l : List Job) (j : Nat) (st : String) (i : Nat) :
    (updateStatus l j st).get? i =
      if i = j then (l.get? i).map (fun r => { r with status := st })
      else l.get? i := by
  induction l generalizing i j with
  | nil => simp [updateStatus]
  | cons a as ih =>
    cases j with
    | zero =>
      cases i with
      | zero => simp [updateStatus]
      | succ m => simp [updateStatus]
    | succ n =>
      cases i with
      | zero => simp [updateStatus]
      | succ m => simpa [updateStatus, Nat.succ_inj] using ih n m

/-- Unfolding lemma: dict lookup on a cons cell. -/
theorem alookup_cons (p : Int × Int) (ps : List (Int × Int)) (k : Int) :
    alookup (p :: ps) k = if p.1 = k then some p.2 else alookup ps k := by
  by_cases h : p.1 = k <;> simp [alookup, List.find?, h]

/-- Unfolding lemma: dict removal on a cons cell. -/
theorem aerase_cons (p : Int × Int) (ps : List (Int × Int)) (k : Int) :
    aerase (p :: ps) k = if p.1 = k then aerase ps k else p :: aerase ps k := by
  by_cases h : p.1 = k <;> simp [aerase, h]

/-- Erasing a key makes it unfindable. -/
theorem alookup_aerase_self (l : List (Int × Int)) (k : Int) :
    alookup (aerase l k) k = none := by
  induction l with
  | nil => rfl
  | cons p ps ih =>
    rw [aerase_cons]
    by_cases h : p.1 = k
    · simpa [h] using ih
    · rw [if_neg h, alookup_cons, if_neg h]
      exact ih

/-- Erasing some key never makes another key findable. -/
theorem alookup_aerase_none (l : List (Int × Int)) (k k2 : Int)
    (h : alookup l k = none) : alookup (aerase l k2) k = none := by
  induction l with
  | nil => rfl
  | cons p ps ih =>
    rw [alookup_cons] at h
    by_cases hp : p.1 = k
    · simp [hp] at h
    · rw [if_neg hp] at h
      rw [aerase_cons]
      by_cases h2 : p.1 = k2
      · rw [if_pos h2]
        exact ih h
      · rw [if_neg h2, alookup_cons, if_neg hp]
        exact ih h

/-- Row-level description of the scheduler tick: each row is transformed
independently by `schedulerStep`. -/
theorem checkScheduledGo_fst_get? (now : String) (l : List Job) (n i : Nat) :
    (checkScheduledGo now n l).1.get? i = (l.get? i).map (schedulerStep now) := by
  induction l generalizing n i with
  | nil => simp [checkScheduledGo]
  | cons a as ih =>
    cases i with
    | zero =>
      simp only [checkScheduledGo]
      split <;> rename_i hc <;> simp [schedulerStep, hc]
    | succ m =>
      simp only [checkScheduledGo]
      split <;> simpa using ih (n + 1) m

/-- The indices reported as started by one scheduler tick are exactly
the Waiting rows whose scheduled time is string equal to now. -/
theorem checkScheduledGo_snd_mem (now : String) (l : List Job) (n k : Nat) :
    k ∈ (checkScheduledGo now n l).2 ↔
      ∃ i row, k = n + i ∧ l.get? i = some row ∧
        row.status = "Menunggu" ∧ row.jamMulai = now := by
  induction l generalizing n with
  | nil => simp [checkScheduledGo]
  | cons a as ih =>
    simp only [checkScheduledGo]
    by_cases h : a.status = "Menunggu" ∧ a.jamMulai = now
    · rw [if_pos (by simp [h.1, h.2])]
      simp only [List.mem_cons]
      constructor
      · intro hk
        rcases hk with hk | hk
        · exact ⟨0, a, by omega, by simp, h.1, h.2⟩
        · rcases (ih (n + 1)).1 hk with ⟨i, row, hki, hg, h1, h2⟩
          exact ⟨i + 1, row, by omega, by simpa using hg, h1, h2⟩
      · rintro ⟨i, row, hki, hg, h1, h2⟩
        cases i with
        | zero => left; omega
        | succ m =>
          right
          exact (ih (n + 1)).2 ⟨m, row, by omega, by simpa using hg, h1, h2⟩
    · rw [if_neg (by simpa using fun h1 h2 => h ⟨h1, h2⟩)]
      rw [ih (n + 1)]
      constructor
      · rintro ⟨i, row, hki, hg, h1, h2⟩
        exact ⟨i + 1, row, by omega, by simpa using hg, h1, h2⟩
      · rintro ⟨i, row, hki, hg, h1, h2⟩
        cases i with
        | zero =>
          simp at hg
          exact absurd ⟨hg ▸ h1, hg ▸ h2⟩ h
        | succ m =>
          exact ⟨m, row, by omega, by simpa using hg, h1, h2⟩

/-- One scanner loop iteration never changes the number of rows. -/
theorem scanFile_streams_length (r : Int → Bool) (s : ScanState) (f : PidFile) :
    (scanFile r s f).streams.length = s.streams.length := by
  rcases hp : parseRowId f.name with _ | rid <;>
    rcases hc : pyInt f.content with _ | pid <;>
      simp only [scanFile, hp, hc]
  split_ifs <;> simp [updateStatus_length]

/-- One scanner loop iteration only ever appends to the removal log. -/
theorem scanFile_removed_mono (r : Int → Bool) (s : ScanState) (f : PidFile)
    (x : String) (hx : x ∈ s.removed) : x ∈ (scanFile r s f).removed := by
  rcases hp : parseRowId f.name with _ | rid <;>
    rcases hc : pyInt f.content with _ | pid <;>
      simp only [scanFile, hp, hc]
  · simpa using Or.inl hx
  · simpa using Or.inl hx
  · simpa using Or.inl hx
  · split_ifs <;> simp [hx]

/-- One scanner loop iteration keeps a Live row Live: the only status it
ever writes is the Live marker itself. -/
theorem scanFile_live (r : Int → Bool) (s : ScanState) (f : PidFile) (i : Nat)
    (h : ((s.streams.get? i).map Job.status) = some "Sedang Live") :
    (((scanFile r s f).streams.get? i).map Job.status) = some "Sedang Live" := by
  rcases hp : parseRowId f.name with _ | rid <;>
    rcases hc : pyInt f.content with _ | pid <;>
      simp only [scanFile, hp, hc]
  · exact h
  · exact h
  · exact h
  · split_ifs <;> try exact h
    rename_i hrid h0
    simp only [updateStatus_get?]
    by_cases hi : i = rid.toNat
    · rw [if_pos hi]
      rcases hg : s.streams.get? i with _ | row
      · rw [hg] at h
        simp at h
      · simp
    · rw [if_neg hi]
      exact h

/-- Any row a scanner loop iteration changes is traced to a parsed,
running, in-range pid file. -/
theorem scanFile_change (r : Int → Bool) (s : ScanState) (f : PidFile) (i : Nat)
    (h : (scanFile r s f).streams.get? i ≠ s.streams.get? i) :
    ∃ pid, parseRowId f.name = some (i : Int) ∧ pyInt f.content = some pid ∧
      r pid = true ∧ (i : Int) < (s.streams.length : Int) := by
  rcases hp : parseRowId f.name with _ | rid <;>
    rcases hc : pyInt f.content with _ | pid <;>
      simp only [scanFile, hp, hc] at h
  · exact absurd rfl h
  · exact absurd rfl h
  · exact absurd rfl h
  · by_cases hr : r pid
    · rw [if_pos hr] at h
      by_cases hlen : rid < (s.streams.length : Int)
      · rw [if_pos hlen] at h
        by_cases h0 : 0 ≤ rid
        · rw [if_pos h0] at h
          simp only [updateStatus_get?] at h
          by_cases hi : i = rid.toNat
          · have hri : rid = (i : Int) := by omega
            subst hri
            exact ⟨pid, rfl, rfl, hr, by omega⟩
          · rw [if_neg hi] at h
            exact absurd rfl h
        · rw [if_neg h0] at h
          exact absurd rfl h
      · rw [if_neg hlen] at h
        exact absurd rfl h
    · rw [if_neg hr] at h
      exact absurd rfl h

/-- A scanner loop iteration on a pid file whose recorded process is not
running leaves the registry rows untouched. -/
theorem scanFile_dead_streams (r : Int → Bool) (s : ScanState) (f : PidFile)
    (h : ∀ pid, pyInt f.content = some pid → r pid = false) :
    (scanFile r s f).streams = s.streams := by
  rcases hp : parseRowId f.name with _ | rid <;>
    rcases hc : pyInt f.content with _ | pid <;>
      simp only [scanFile, hp, hc]
  rw [if_neg (by simp [h pid hc])]

/-- With no running recorded process, a scanner loop iteration never
adds an `active_streams` entry. -/
theorem scanFile_dead_none (r : Int → Bool) (s : ScanState) (f : PidFile)
    (h : ∀ pid, pyInt f.content = some pid → r pid = false) (k : Int)
    (hk : alookup s.active k = none) : alookup (scanFile r s f).active k = none := by
  rcases hp : parseRowId f.name with _ | rid <;>
    rcases hc : pyInt f.content with _ | pid <;>
      simp only [scanFile, hp, hc]
  · exact hk
  · exact hk
  · exact hk
  · rw [if_neg (by simp [h pid hc])]
    exact alookup_aerase_none s.active k rid hk

/-- The exact effect of a scanner loop iteration on a parsed pid file
whose recorded process is dead: both tracking files are removed and its
`active_streams` entry is erased. -/
theorem scanFile_dead_at (r : Int → Bool) (s : ScanState) (f : PidFile)
    (rid pid : Int) (hp : parseRowId f.name = some rid)
    (hc : pyInt f.content = some pid) (hr : r pid = false) :
    (scanFile r s f).active = aerase s.active rid ∧
    ("stream_" ++ toString rid ++ ".pid") ∈ (scanFile r s f).removed ∧
    ("stream_" ++ toString rid ++ ".status") ∈ (scanFile r s f).removed := by
  simp only [scanFile, hp, hc]
  rw [if_neg (by simp [hr])]
  refine ⟨rfl, ?_, ?_⟩ <;> simp [cleanupFiles]

/-- The scanner loop never changes the number of rows. -/
theorem foldScan_length (r : Int → Bool) (fs : List PidFile) :
    ∀ s : ScanState, (fs.foldl (scanFile r) s).streams.length = s.streams.length := by
  induction fs with
  | nil => intro s; rfl
  | cons f fs ih =>
    intro s
    rw [List.foldl_cons, ih, scanFile_streams_length]

/-- The scanner loop only ever appends to the removal log. -/
theorem foldScan_removed_mono (r : Int → Bool) (fs : List PidFile) :
    ∀ (s : ScanState) (x : String), x ∈ s.removed →
      x ∈ (fs.foldl (scanFile r) s).removed := by
  induction fs with
  | nil => intro s x hx; exact hx
  | cons f fs ih =>
    intro s x hx
    rw [List.foldl_cons]
    exact ih _ x (scanFile_removed_mono r s f x hx)

/-- The scanner loop keeps a Live row Live. -/
theorem foldScan_live (r : Int → Bool) (fs : List PidFile) :
    ∀ (s : ScanState) (i : Nat),
      ((s.streams.get? i).map Job.status) = some "Sedang Live" →
      (((fs.foldl (scanFile r) s).streams.get? i).map Job.status) = some "Sedang Live" := by
  induction fs with
  | nil => intro s i h; exact h
  | cons f fs ih =>
    intro s i h
    rw [List.foldl_cons]
    exact ih _ i (scanFile_live r s f i h)

/-- Any row the scanner loop changes is traced to a parsed, running,
in-range pid file among the processed files. -/
theorem foldScan_change (r : Int → Bool) (fs : List PidFile) :
    ∀ (s : ScanState) (i : Nat),
      (fs.foldl (scanFile r) s).streams.get? i ≠ s.streams.get? i →
      ∃ f ∈ fs, ∃ pid, parseRowId f.name = some (i : Int) ∧
        pyInt f.content = some pid ∧ r pid = true ∧
        (i : Int) < (s.streams.length : Int) := by
  induction fs with
  | nil => intro s i h; exact absurd rfl h
  | cons f fs ih =>
    intro s i h
    rw [List.foldl_cons] at h
    by_cases hstep : (scanFile r s f).streams.get? i = s.streams.get? i
    · have h2 : (fs.foldl (scanFile r) (scanFile r s f)).streams.get? i ≠
          (scanFile r s f).streams.get? i := by
        rw [hstep]; exact h
      rcases ih _ i h2 with ⟨g, hg, pid, h1, h2g, h3, h4⟩
      refine ⟨g, List.mem_cons_of_mem f hg, pid, h1, h2g, h3, ?_⟩
      rwa [scanFile_streams_length] at h4
    · rcases scanFile_change r s f i hstep with ⟨pid, h1, h2s, h3, h4⟩
      exact ⟨f, List.mem_cons_self f fs, pid, h1, h2s, h3, h4⟩

/-- When none of the recorded processes is running, the scanner loop
leaves every registry row untouched. -/
theorem foldScan_dead_streams (r : Int → Bool) (fs : List PidFile)
    (hd : ∀ f ∈ fs, ∀ pid, pyInt f.content = some pid → r pid = false) :
    ∀ s : ScanState, (fs.foldl (scanFile r) s).streams = s.streams := by
  induction fs with
  | nil => intro s; rfl
  | cons f fs ih =>
    intro s
    rw [List.foldl_cons,
      ih (fun g hg => hd g (List.mem_cons_of_mem f hg)),
      scanFile_dead_streams r s f (hd f (List.mem_cons_self f fs))]

/-- When none of the recorded processes is running, the scanner loop
never adds an `active_streams` entry. -/
theorem foldScan_dead_none (r : Int → Bool) (fs : List PidFile)
    (hd : ∀ f ∈ fs, ∀ pid, pyInt f.content = some pid → r pid = false) :
    ∀ (s : ScanState) (k : Int), alookup s.active k = none →
      alookup (fs.foldl (scanFile r) s).active k = none := by
  induction fs with
  | nil => intro s k hk; exact hk
  | cons f fs ih =>
    intro s k hk
    rw [List.foldl_cons]
    exact ih (fun g hg => hd g (List.mem_cons_of_mem f hg)) _ k
      (scanFile_dead_none r s f (hd f (List.mem_cons_self f fs)) k hk)

/-- When none of the recorded processes is running, every parsed pid
file among the processed files ends up with its `active_streams` entry
erased and both of its tracking files removed. -/
theorem foldScan_dead_mem (r : Int → Bool) (fs : List PidFile)
    (hd : ∀ f ∈ fs, ∀ pid, pyInt f.content = some pid → r pid = false) :
    ∀ (s : ScanState), ∀ f ∈ fs, ∀ rid pid, parseRowId f.name = some rid →
      pyInt f.content = some pid →
      alookup (fs.foldl (scanFile r) s).active rid = none ∧
      ("stream_" ++ toString rid ++ ".pid") ∈ (fs.foldl (scanFile r) s).removed ∧
      ("stream_" ++ toString rid ++ ".status") ∈ (fs.foldl (scanFile r) s).removed := by
  induction fs with
  | nil =>
    intro s f hf
    cases hf
  | cons g gs ih =>
    intro s f hf rid pid hp hc
    have hd' : ∀ f ∈ gs, ∀ pid, pyInt f.content = some pid → r pid = false :=
      fun x hx => hd x (List.mem_cons_of_mem g hx)
    rw [List.foldl_cons]
    rcases List.mem_cons.mp hf with rfl | hf'
    · have hr : r pid = false := hd f (List.mem_cons_self f gs) pid hc
      obtain ⟨ha, h1, h2⟩ := scanFile_dead_at r s f rid pid hp hc hr
      refine ⟨?_, ?_, ?_⟩
      · refine foldScan_dead_none r gs hd' _ rid ?_
        rw [ha]
        exact alookup_aerase_self s.active rid
      · exact foldScan_removed_mono r gs _ _ h1
      · exact foldScan_removed_mono r gs _ _ h2
    · exact ih hd' (scanFile r s g) f hf' rid pid hp hc

/-- A pid file that fails either integer parse gets its name appended to
the removal log by its own loop iteration. -/
theorem scanFile_badparse (r : Int → Bool) (s : ScanState) (f : PidFile)
    (h : parseRowId f.name = none ∨ pyInt f.content = none) :
    f.name ∈ (scanFile r s f).removed := by
  rcases hp : parseRowId f.name with _ | rid <;>
    rcases hc : pyInt f.content with _ | pid <;>
      simp only [scanFile, hp, hc] <;> try simp
  rw [hp, hc] at h
  rcases h with h | h <;> cases h

/-- A pid file that fails either integer parse is removed by the scanner
loop, wherever it sits in the file list. -/
theorem foldScan_badparse (r : Int → Bool) (fs : List PidFile) :
    ∀ s : ScanState, ∀ f ∈ fs, (parseRowId f.name = none ∨ pyInt f.content = none) →
      f.name ∈ (fs.foldl (scanFile r) s).removed := by
  induction fs with
  | nil =>
    intro s f hf
    cases hf
  | cons g gs ih =>
    intro s f hf hbad
    rw [List.foldl_cons]
    rcases List.mem_cons.mp hf with rfl | hf'
    · exact foldScan_removed_mono r gs _ _ (scanFile_badparse r s f hbad)
    · exact ih _ f hf' hbad

/-- Reading the pid raises (models `ValueError` on a corrupt pid file)
exactly when the dict holds no usable pid and the pid file exists but
does not parse. -/
theorem stopPidRead_none_iff (active : List (Int × Int)) (files : List PidFile)
    (rowId : Nat) :
    stopPidRead active files rowId = none ↔
      ((alookup active (rowId : Int)).getD 0 = 0 ∧
        ∃ c, fileLookup files ("stream_" ++ toString rowId ++ ".pid") = some c ∧
          pyInt c = none) := by
  unfold stopPidRead
  by_cases h0 : (alookup active (rowId : Int)).getD 0 = 0
  · rw [if_pos h0]
    rcases hf : fileLookup files ("stream_" ++ toString rowId ++ ".pid") with _ | c
    · simp [h0]
    · rcases hc : pyInt c with _ | p
      · simp [hc, h0]
      · simp [hc, h0]
  · rw [if_neg h0]
    simp [h0]

/-- Unless the pid read raises, `stop_stream` returns success, writes
the Stopped status at the row, drops the dict entry, and issues no
remote broadcast request. -/
theorem stop_stream_success (running runningAfterTerm : Int → Bool) (streams : List Job)
    (active : List (Int × Int)) (files : List PidFile) (rowId : Nat) (pidO : Option Int)
    (h : stopPidRead active files rowId = some pidO) :
    (stop_stream running runningAfterTerm streams active files rowId).ret = true ∧
    (stop_stream running runningAfterTerm streams active files rowId).streams =
      updateStatus streams rowId "Dihentikan" ∧
    (stop_stream running runningAfterTerm streams active files rowId).active =
      aerase active (rowId : Int) ∧
    (stop_stream running runningAfterTerm streams active files rowId).effects.broadcastRequests
      = [] := by
  simp only [stop_stream, h]
  split_ifs <;> exact ⟨rfl, rfl, rfl, rfl⟩

/-- The masked rendering of a key longer than 8 characters always has
exactly 12 characters. -/
theorem maskKey_length (k : String) (hk : 8 < k.data.length) :
    (maskKey k).data.length = 12 := by
  simp only [maskKey]
  rw [if_pos hk]
  rw [String.data_append, String.data_append]
  simp only [List.length_append]
  have h1 : (k.data.take 4).length = 4 := by
    rw [List.length_take]
    omega
  have h2 : ((k.data.reverse.take 3).reverse).length = 3 := by
    rw [List.length_reverse, List.length_take, List.length_reverse]
    omega
  rw [h1, h2]
  rfl

/-- Claim C5: `get_quality_settings` is the fixed table — Low (480p) is
1000 kbps at 854×480, Medium (720p) 2500 kbps at 1280×720, High (1080p)
4500 kbps at 1920×1080 — with dimensions swapped in vertical (shorts)
mode, every quality outside the table resolving to the Medium (720p)
row, and identical arguments always yielding identical results. -/
theorem C5_quality_table :
    (∀ v : Bool,
      get_quality_settings "480p" v =
        ⟨"1000k", "96k", "1100k", "2200k", if v then "480:854" else "854:480", "30"⟩ ∧
      get_quality_settings "720p" v =
        ⟨"2500k", "128k", "2750k", "5500k", if v then "720:1280" else "1280:720", "30"⟩ ∧
      get_quality_settings "1080p" v =
        ⟨"4500k", "192k", "4950k", "9900k", if v then "1080:1920" else "1920:1080", "30"⟩) ∧
    (∀ (q : String) (v : Bool), q ≠ "480p" → q ≠ "720p" → q ≠ "1080p" →
      get_quality_settings q v = get_quality_settings "720p" v) ∧
    (∀ (q : String) (v : Bool), get_quality_settings q v = get_quality_settings q v) := by
  refine ⟨?_, ?_, fun q v => rfl⟩
  · intro v
    cases v <;> exact ⟨rfl, rfl, rfl⟩
  · intro q v h1 h2 h3
    simp [get_quality_settings, h1, h2, h3]

/-- Witness for C5 at a concrete unknown quality string. -/
theorem C5_quality_table_witness :
    get_quality_settings "ultra" false = get_quality_settings "720p" false :=
  C5_quality_table.2.1 "ultra" false (by decide) (by decide) (by decide)

/-- Claim C1 as stated is false: at 08:05 the Waiting job scheduled for
08:00 satisfies the claimed equal-or-earlier trigger condition
(`timeLE`), yet the scheduler tick starts nothing and leaves the row
Waiting — `check_scheduled_streams` compares the two clock strings for
equality only. -/
theorem C1_counterexample :
    timeLE "08:00" "08:05" = true ∧
    check_scheduled_streams "08:05" [c1job] = ([c1job], []) ∧
    c1job.status = "Menunggu" := by decide

/-- Claim C1 amended: a Scheduler tick starts exactly the Waiting rows
whose scheduled `Jam Mulai` string equals the current `%H:%M` string;
every other row — including Waiting rows whose scheduled time-of-day is
strictly earlier than now — is left untouched. -/
theorem C1_amended (now : String) (streams : List Job) (i : Nat) :
    ((check_scheduled_streams now streams).1.get? i =
      (streams.get? i).map (schedulerStep now)) ∧
    (i ∈ (check_scheduled_streams now streams).2 ↔
      ∃ row, streams.get? i = some row ∧ row.status = "Menunggu" ∧
        row.jamMulai = now) := by
  constructor
  · exact checkScheduledGo_fst_get? now streams 0 i
  · rw [check_scheduled_streams, checkScheduledGo_snd_mem]
    constructor
    · rintro ⟨j, row, hij, hg, h1, h2⟩
      have hj : j = i := by omega
      subst hj
      exact ⟨row, hg, h1, h2⟩
    · rintro ⟨row, hg, h1, h2⟩
      exact ⟨i, row, by omega, hg, h1, h2⟩

/-- Claim C7 as stated is false: with the registry file present but
unparseable, `load_persistent_streams` does not fail closed — it
returns the empty job list, indistinguishable from a missing file. -/
theorem C7_counterexample :
    load_persistent_streams (RegistryFile.present none) = [] ∧
    load_persistent_streams (RegistryFile.present none) =
      load_persistent_streams RegistryFile.absent :=
  ⟨rfl, rfl⟩

/-- Claim C7 amended: a readable registry file loads its records; a
present but unparseable file silently loads as the empty job list,
exactly as if the file were absent.  The load itself performs no write
(any preservation of the corrupt file lasts only until the next save). -/
theorem C7_amended (jobs : List Job) :
    load_persistent_streams (RegistryFile.present (some jobs)) = jobs ∧
    load_persistent_streams (RegistryFile.present none) =
      load_persistent_streams RegistryFile.absent ∧
    load_persistent_streams RegistryFile.absent = ([] : List Job) :=
  ⟨rfl, rfl, rfl⟩

/-- Claim C4 as stated is false: for the job whose source file
`missing.mp4` does not exist, `start_stream` still reports success,
persists the Live status, and spawns the encoder thread — the function
consults no file system at all, so no `SourceNotFound` rejection can
occur before spawn. -/
theorem C4_counterexample :
    (start_stream [c4job] 0).ok = true ∧
    (start_stream [c4job] 0).persisted = true ∧
    (start_stream [c4job] 0).spawned = [0] ∧
    ((start_stream [c4job] 0).streams.get? 0).map Job.status = some "Sedang Live" := by
  decide

/-- Claim C4 amended: `start_stream` performs no source-existence
check — on every input it returns success, marks exactly the target row
Live (persisting it), and spawns the encoder thread; a missing source
surfaces only later through the spawned encoder's own exit handling. -/
theorem C4_amended (streams : List Job) (rowId : Nat) :
    (start_stream streams rowId).ok = true ∧
    (start_stream streams rowId).persisted = true ∧
    (start_stream streams rowId).spawned = [rowId] ∧
    ∀ i, (start_stream streams rowId).streams.get? i =
      if i = rowId then
        (streams.get? i).map (fun r => { r with status := "Sedang Live" })
      else streams.get? i :=
  ⟨rfl, rfl, rfl, fun i => updateStatus_get? streams rowId "Sedang Live" i⟩

/-- Claim C3 as stated is false: stopping the Waiting job returns
success but rewrites its status to `Dihentikan` (Stopped) — not a no-op
on the registry record. -/
theorem C3_counterexample :
    (stop_stream (fun _ => false) (fun _ => false) [c3job] [] [] 0).ret = true ∧
    ((stop_stream (fun _ => false) (fun _ => false) [c3job] [] [] 0).streams.get? 0).map
      Job.status = some "Dihentikan" ∧
    c3job.status = "Menunggu" := by decide

/-- Claim C3 amended: calling `stop_stream` on any row — Live or not —
returns success and unconditionally rewrites that row's status to
`Dihentikan` (Stopped), leaving every other row unchanged (the only
exception is a corrupt pid file, whose `ValueError` makes the call
return failure with nothing changed). -/
theorem C3_amended (running runningAfterTerm : Int → Bool) (streams : List Job)
    (active : List (Int × Int)) (files : List PidFile) (rowId : Nat)
    (hok : stopPidRead active files rowId ≠ none) :
    (stop_stream running runningAfterTerm streams active files rowId).ret = true ∧
    ∀ i, (stop_stream running runningAfterTerm streams active files rowId).streams.get? i =
      if i = rowId then
        (streams.get? i).map (fun r => { r with status := "Dihentikan" })
      else streams.get? i := by
  rcases h : stopPidRead active files rowId with _ | pidO
  · exact absurd h hok
  · obtain ⟨h1, h2, h3, h4⟩ :=
      stop_stream_success running runningAfterTerm streams active files rowId pidO h
    refine ⟨h1, fun i => ?_⟩
    rw [h2]
    exact updateStatus_get? streams rowId "Dihentikan" i

/-- Witness for C3 on a Completed (terminal, non-Live) row. -/
theorem C3_amended_witness :
    (stop_stream (fun _ => false) (fun _ => false) [c3wjob] [] [] 0).ret = true :=
  (C3_amended (fun _ => false) (fun _ => false) [c3wjob] [] [] 0 (by decide)).1

/-- Claim C8 as stated is false: stopping the Live job with its running
recorded pid issues no remote broadcast transition at all —
`stop_stream` contains no call to `stop_youtube_broadcast` (which has no
caller anywhere in the source), and the job schema carries no bound
broadcast id to finalize. -/
theorem C8_counterexample :
    (stop_stream (fun p => p = 4242) (fun _ => false) [c8job] [(0, 4242)] []
        0).effects.broadcastRequests = [] ∧
    (stop_stream (fun p => p = 4242) (fun _ => false) [c8job] [(0, 4242)] [] 0).ret
      = true := by decide

/-- Claim C8 amended: `stop_stream` never requests any remote broadcast
transition, on any input whatsoever; the jobs it operates on have no
remote broadcast binding, and the `complete` transition helper is dead
code. -/
theorem C8_amended (running runningAfterTerm : Int → Bool) (streams : List Job)
    (active : List (Int × Int)) (files : List PidFile) (rowId : Nat) :
    (stop_stream running runningAfterTerm streams active files
      rowId).effects.broadcastRequests = [] := by
  rcases h : stopPidRead active files rowId with _ | pidO
  · simp [stop_stream, h]
  · exact (stop_stream_success running runningAfterTerm streams active files rowId
      pidO h).2.2.2

/-- Claim C2 as stated is false: job 0 is persisted Live with recorded
pid 4242, no such process is running, yet one scanner run leaves its
registry record exactly as it was — still `Sedang Live`, never
`Terputus` (Disconnected). -/
theorem C2_counterexample :
    (reconnect_to_existing_streams (fun _ => false) [c2job] [(0, 4242)]
        [⟨"stream_0.pid", "4242"⟩]).streams = [c2job] ∧
    c2job.status = "Sedang Live" := by decide

/-- Claim C2 amended: after a crash (no recorded encoder process
running), one run of the Reconciliation Scanner leaves every job's
registry record unchanged — in particular a Live job with a dead
recorded process stays Live rather than becoming Disconnected — while
the dead job's tracking files are deleted and its active-streams entry
is cleared. -/
theorem C2_amended (running : Int → Bool) (streams : List Job)
    (active : List (Int × Int)) (files : List PidFile)
    (hdead : ∀ f ∈ files, ∀ pid, pyInt f.content = some pid → running pid = false) :
    (reconnect_to_existing_streams running streams active files).streams = streams ∧
    ∀ f ∈ files,
      (hasPrefixChars "stream_".data f.name.data &&
        hasSuffixChars ".pid".data f.name.data) = true →
      ∀ rid pid, parseRowId f.name = some rid → pyInt f.content = some pid →
        alookup (reconnect_to_existing_streams running streams active files).active rid
          = none ∧
        ("stream_" ++ toString rid ++ ".pid")
          ∈ (reconnect_to_existing_streams running streams active files).removed ∧
        ("stream_" ++ toString rid ++ ".status")
          ∈ (reconnect_to_existing_streams running streams active files).removed := by
  have hdF : ∀ f ∈ files.filter (fun f =>
      hasPrefixChars "stream_".data f.name.data &&
      hasSuffixChars ".pid".data f.name.data),
      ∀ pid, pyInt f.content = some pid → running pid = false :=
    fun f hf => hdead f (List.mem_filter.mp hf).1
  constructor
  · exact foldScan_dead_streams running _ hdF ⟨streams, active, [], []⟩
  · intro f hf hcond rid pid hp hc
    have hmem : f ∈ files.filter (fun f =>
        hasPrefixChars "stream_".data f.name.data &&
        hasSuffixChars ".pid".data f.name.data) :=
      List.mem_filter.mpr ⟨hf, hcond⟩
    exact foldScan_dead_mem running _ hdF ⟨streams, active, [], []⟩ f hmem rid pid hp hc

/-- Witness for C2 at the concrete crashed state. -/
theorem C2_amended_witness :
    (reconnect_to_existing_streams (fun _ => false) [c2job] [(0, 4242)]
        [⟨"stream_0.pid", "4242"⟩]).active = [] ∧
    alookup (reconnect_to_existing_streams (fun _ => false) [c2job] [(0, 4242)]
        [⟨"stream_0.pid", "4242"⟩]).active 0 = none ∧
    ("stream_0.pid") ∈ (reconnect_to_existing_streams (fun _ => false) [c2job]
        [(0, 4242)] [⟨"stream_0.pid", "4242"⟩]).removed := by
  have h := C2_amended (fun _ => false) [c2job] [(0, 4242)]
    [⟨"stream_0.pid", "4242"⟩] (fun f hf pid hc => rfl)
  have h2 := h.2 ⟨"stream_0.pid", "4242"⟩ (by decide) (by decide) 0 4242
    (by decide) (by decide)
  exact ⟨by decide, h2.1, h2.2.1⟩

/-- Claim C9 as stated is false: the Reconciliation Scanner itself moves
job 0 from Waiting into Live when a pid file recording a running,
ffmpeg-named process exists — no start() call is involved. -/
theorem C9_counterexample :
    ((reconnect_to_existing_streams (fun p => p = 77) [c9job] []
        [⟨"stream_0.pid", "77"⟩]).streams.get? 0).map Job.status
      = some "Sedang Live" ∧
    c9job.status = "Menunggu" := by decide

/-- Claim C9 amended: a job's status is written to Live by start() and
also by the Reconciliation Scanner (when an in-range pid file records a
running process); transitions OUT of Live still happen only through the
monitor or stop(): the scanner, the scheduler tick and start() each
keep every Live row Live. -/
theorem C9_amended :
    (∀ (running : Int → Bool) (streams : List Job) (active : List (Int × Int))
        (files : List PidFile) (i : Nat),
      ((streams.get? i).map Job.status) = some "Sedang Live" →
      (((reconnect_to_existing_streams running streams active files).streams.get? i).map
        Job.status) = some "Sedang Live") ∧
    (∀ (now : String) (streams : List Job) (i : Nat),
      ((streams.get? i).map Job.status) = some "Sedang Live" →
      (((check_scheduled_streams now streams).1.get? i).map Job.status)
        = some "Sedang Live") ∧
    (∀ (streams : List Job) (rowId i : Nat),
      ((streams.get? i).map Job.status) = some "Sedang Live" →
      (((start_stream streams rowId).streams.get? i).map Job.status)
        = some "Sedang Live") := by
  refine ⟨?_, ?_, ?_⟩
  · intro running streams active files i h
    exact foldScan_live running _ ⟨streams, active, [], []⟩ i h
  · intro now streams i h
    simp only [check_scheduled_streams]
    rw [checkScheduledGo_fst_get?]
    rcases hg : streams.get? i with _ | row
    · rw [hg] at h
      simp at h
    · rw [hg] at h
      simp only [Option.map_some'] at h ⊢
      simp only [Option.some.injEq] at h
      have hne : row.status ≠ "Menunggu" := by
        rw [h]
        decide

      simp [schedulerStep, hne, h]
  · intro streams rowId i h
    simp only [start_stream]
    rw [updateStatus_get? streams rowId "Sedang Live" i]
    by_cases hi : i = rowId
    · rw [if_pos hi]
      rcases hg : streams.get? i with _ | row
      · rw [hg] at h
        simp at h
      · simp
    · rw [if_neg hi]
      exact h

/-- Witness for C9 on a concrete Live row surviving a scanner run. -/
theorem C9_amended_witness :
    (((reconnect_to_existing_streams (fun _ => false) [c9live] [] []).streams.get? 0).map
      Job.status) = some "Sedang Live" :=
  C9_amended.1 (fun _ => false) [c9live] [] [] 0 (by decide)

/-- Claim C10: the scanner preserves the number of job records; any
record it changes is traced to a tracking file that parses to that
in-range id with a running recorded process (so an out-of-range id, or
a file whose name or contents fail integer parsing, never causes a
write to any job record); and every listed `stream_*.pid` file that
fails parsing is removed while the scan continues with the rest. -/
theorem C10_bounds_guarded (running : Int → Bool) (streams : List Job)
    (active : List (Int × Int)) (files : List PidFile) :
    (reconnect_to_existing_streams running streams active files).streams.length
      = streams.length ∧
    (∀ i : Nat,
      (reconnect_to_existing_streams running streams active files).streams.get? i
        ≠ streams.get? i →
      ∃ f ∈ files, ∃ pid, parseRowId f.name = some (i : Int) ∧
        pyInt f.content = some pid ∧ running pid = true ∧
        (i : Int) < (streams.length : Int)) ∧
    (∀ f ∈ files,
      (hasPrefixChars "stream_".data f.name.data &&
        hasSuffixChars ".pid".data f.name.data) = true →
      (parseRowId f.name = none ∨ pyInt f.content = none) →
      f.name ∈ (reconnect_to_existing_streams running streams active files).removed) := by
  refine ⟨?_, ?_, ?_⟩
  · exact foldScan_length running _ ⟨streams, active, [], []⟩
  · intro i h
    rcases foldScan_change running _ ⟨streams, active, [], []⟩ i h with
      ⟨f, hf, pid, h1, h2, h3, h4⟩
    exact ⟨f, (List.mem_filter.mp hf).1, pid, h1, h2, h3, h4⟩
  · intro f hf hcond hbad
    exact foldScan_badparse running _ ⟨streams, active, [], []⟩ f
      (List.mem_filter.mpr ⟨hf, hcond⟩) hbad

/-- Witness for C10: a pid file with an unparsable id is removed. -/
theorem C10_bounds_guarded_witness :
    c10file.name ∈ (reconnect_to_existing_streams (fun _ => true) [] []
      [c10file]).removed :=
  (C10_bounds_guarded (fun _ => true) [] [] [c10file]).2.2 c10file (by decide)
    (by decide) (Or.inl (by decide))

/-- Left-append preserves ending with a fixed tail. -/
theorem append_tail_exists (a b k : String) (h : ∃ p, b = p ++ k) :
    ∃ p, a ++ b = p ++ k := by
  rcases h with ⟨p, rfl⟩
  exact ⟨a ++ p, (String.append_assoc a p k).symm⟩

set_option maxRecDepth 8000 in
/-- Claim C6 as stated is false: the full stream key appears verbatim at
the end of the command line that `run_ffmpeg` writes to the per-job log
file. -/
theorem C6_counterexample :
    hasSuffixChars "abcd1234efgh".data
      (run_ffmpeg_log_cmd_line "demo.mp4" "abcd1234efgh" false "720p").data = true := by
  decide

/-- Claim C6 amended: the Stream Manager table renders the key masked
(the mask of any realistically long key is never the key itself), but
`run_ffmpeg` writes the full key into the per-job log file as the tail
of the logged command line, for every video, key, format and quality. -/
theorem C6_amended :
    (∀ (v k : String) (s : Bool) (q : String),
      ∃ p, run_ffmpeg_log_cmd_line v k s q = p ++ k) ∧
    (∀ k : String, 12 < k.data.length → maskKey k ≠ k) := by
  constructor
  · intro v k s q
    simp only [run_ffmpeg_log_cmd_line, ffmpegCmd, joinSpace]
    repeat
      first
      | exact ⟨"rtmp://a.rtmp.youtube.com/live2/", rfl⟩
      | apply append_tail_exists
  · intro k hk heq
    have h1 := maskKey_length k (by omega)
    rw [heq] at h1
    omega

/-- Witness for C6 at a concrete key. -/
theorem C6_amended_witness :
    (∃ p, run_ffmpeg_log_cmd_line "demo.mp4" "abcd1234efgh" false "720p"
      = p ++ "abcd1234efgh") ∧
    maskKey "abcdefgh12345" ≠ "abcdefgh12345" :=
  ⟨C6_amended.1 "demo.mp4" "abcd1234efgh" false "720p",
   C6_amended.2 "abcdefgh12345" (by decide)⟩

end LiveYT
